import Mathlib

/-!
Verification of the pipeline orchestrator in `scripts/run_pipeline.py`.

The script sequences four stages (captioning, preprocessing, configuration
derivation, training).  The configuration derivation (`update_yaml_config`)
is pure apart from reading the base YAML file and writing the derived file,
so it is embedded here as a function on an explicit configuration record.
The stage sequencing of `main` is embedded as a function from an
environment (outcomes of the external subprocesses and of loading the base
configuration file) to the list of stages that get invoked, the process
exit status, and the derived configuration.

Python primitives used by the script (`int`, `str.split`, `str.replace`,
`os.path.join`, `os.path.basename`, `os.makedirs`,
`datetime.strftime("%Y%m%d_%H%M%S")`) are modelled on `List Char` /
`String` so that everything evaluates inside the kernel.
-/

namespace RunPipeline

/-! ## Python string and integer primitives -/

/-- Leading-whitespace removal on a character list, as in Python `str.strip`
(restricted to the ASCII whitespace recognised by `Char.isWhitespace`;
the strings handled by the script are ASCII). -/
def dropWs : List Char → List Char
  | [] => []
  | c :: cs => if c.isWhitespace then dropWs cs else c :: cs

/-- Strip whitespace from both ends of a character list. -/
def trimChars (l : List Char) : List Char :=
  ((dropWs (dropWs l).reverse)).reverse

/-- Digit-sequence parser for Python `int`: a nonempty run of decimal
digits in which a single underscore may stand between two digits.
`prevDigit` records whether the previous character was a digit. -/
def pyDigitsAux : List Char → Bool → Nat → Option Nat
  | [], prevDigit, acc => if prevDigit then some acc else none
  | c :: cs, prevDigit, acc =>
    if c.isDigit then pyDigitsAux cs true (acc * 10 + (c.toNat - 48))
    else if c = '_' ∧ prevDigit = true then pyDigitsAux cs false acc
    else none

/-- Model of Python `int(s)` for ASCII decimal strings: strip surrounding
whitespace, allow an optional sign, then a digit run.  Returns `none`
where CPython raises `ValueError`.  Note that negative numbers and zero
are accepted: `int` performs no positivity check. -/
def pyInt? (s : String) : Option Int :=
  match trimChars s.data with
  | [] => none
  | c :: cs =>
    if c = '-' then (pyDigitsAux cs false 0).map (fun n => -(n : Int))
    else if c = '+' then (pyDigitsAux cs false 0).map (fun n => (n : Int))
    else (pyDigitsAux (c :: cs) false 0).map (fun n => (n : Int))

/-- Model of the list comprehension `[int(x) for x in l]`: the whole
comprehension raises (returns `none`) as soon as one element fails. -/
def pyMapInt (xs : List String) : Option (List Int) :=
  xs.mapM pyInt?

/-- Model of Python `s.split(sep)` for a single-character separator:
splits on every occurrence, keeping empty pieces, and `"".split(sep)`
gives `[""]`. -/
def splitChar (sep : Char) : List Char → List (List Char)
  | [] => [[]]
  | c :: cs =>
    let r := splitChar sep cs
    if c = sep then [] :: r
    else
      match r with
      | [] => [[c]]
      | h :: t => (c :: h) :: t

/-- String-level wrapper for `splitChar`. -/
def pySplit (s : String) (sep : Char) : List String :=
  (splitChar sep s.data).map (fun l => (⟨l⟩ : String))

/-- If `pat` is a prefix of `s`, return the remainder of `s`, else `none`. -/
def stripPre? : List Char → List Char → Option (List Char)
  | [], s => some s
  | _ :: _, [] => none
  | p :: ps, c :: cs => if p = c then stripPre? ps cs else none

/-- Fuel-indexed worker for `str.replace`: scan left to right, replacing
each non-overlapping occurrence of `pat` and resuming after the inserted
replacement.  The fuel is the length of the scanned text, which bounds
the number of steps for a nonempty pattern. -/
def pyRepFuel (pat rep : List Char) : Nat → List Char → List Char
  | _, [] => []
  | 0, s => s
  | fuel + 1, c :: cs =>
    match stripPre? pat (c :: cs) with
    | some rest => rep ++ pyRepFuel pat rep fuel rest
    | none => c :: pyRepFuel pat rep fuel cs

/-- Model of Python `s.replace(pat, rep)` for a nonempty pattern: every
non-overlapping occurrence is replaced, not only a final suffix. -/
def pyReplace (s pat rep : String) : String :=
  if pat.data = [] then s else ⟨pyRepFuel pat.data rep.data s.data.length s.data⟩

/-- Whether a string starts with a slash (POSIX absolute path test used
by `os.path.join`). -/
def headIsSlash (s : String) : Bool :=
  match s.data with
  | [] => false
  | c :: _ => c = '/'

/-- Whether a string ends with a slash. -/
def lastIsSlash (s : String) : Bool :=
  match s.data.getLast? with
  | some c => c = '/'
  | none => false

/-- Model of POSIX `os.path.join(a, b)` for two components: an absolute
second component discards the first; otherwise a separator is inserted
unless the first component is empty or already ends in a slash. -/
def pyJoin (a b : String) : String :=
  if headIsSlash b then b
  else if a = "" then b
  else if lastIsSlash a then a ++ b
  else a ++ "/" ++ b

/-- Model of `os.path.basename`: the part after the last slash. -/
def pyBasename (p : String) : String :=
  ⟨(splitChar '/' p.data).getLastD []⟩

/-! ## Timestamps (`datetime.now().strftime("%Y%m%d_%H%M%S")`) -/

/-- A wall-clock time at second granularity, the only precision the
script uses. -/
structure Timestamp where
  year : Nat
  month : Nat
  day : Nat
  hour : Nat
  minute : Nat
  second : Nat
deriving DecidableEq

/-- Zero-pad a numeral to two digits, as `%m`, `%d`, `%H`, `%M`, `%S` do. -/
def pad2 (n : Nat) : String :=
  if n < 10 then "0" ++ toString n else toString n

/-- Zero-pad a numeral to four digits, as `%Y` does on glibc. -/
def pad4 (n : Nat) : String :=
  if n < 10 then "000" ++ toString n
  else if n < 100 then "00" ++ toString n
  else if n < 1000 then "0" ++ toString n
  else toString n

/-- Model of `strftime("%Y%m%d_%H%M%S")`. -/
def strftimeYmdHMS (t : Timestamp) : String :=
  pad4 t.year ++ pad2 t.month ++ pad2 t.day ++ "_" ++
    pad2 t.hour ++ pad2 t.minute ++ pad2 t.second

/-! ## Data model

`TrainingConfig` is a YAML mapping; the script touches exactly the keys
`data.preprocessed_data_root`, `data.training_token`,
`validation.video_dims` and the top-level `output_dir`, so the embedding
keeps those fields explicitly (each one optional, since the base document
may lack it) and carries all remaining entries opaquely in `extra` /
`rest` fields that the script never reads or writes. -/

/-- The `data` section of the configuration document. -/
structure DataSection where
  preprocessed_data_root : Option String
  training_token : Option String
  extraD : List (String × String)
deriving DecidableEq

/-- The `validation` section of the configuration document. -/
structure ValSection where
  video_dims : Option (List Int)
  extraV : List (String × String)
deriving DecidableEq

/-- A loaded configuration document.  `data` and `validation` are
`Option` because the base YAML file may lack either top-level section. -/
structure Config where
  data : Option DataSection
  validation : Option ValSection
  output_dir : Option String
  rest : List (String × String)
deriving DecidableEq

/-- The value of `validation.video_dims`, when both the section and the
key are present (`none` otherwise). -/
def valDims (c : Config) : Option (List Int) :=
  match c.validation with
  | some v => v.video_dims
  | none => none

/-- The value of `data.preprocessed_data_root`, when present. -/
def dataPdr (c : Config) : Option String :=
  match c.data with
  | some d => d.preprocessed_data_root
  | none => none

/-- The value of `data.training_token`, when present. -/
def dataToken (c : Config) : Option String :=
  match c.data with
  | some d => d.training_token
  | none => none

/-- The parsed command line, mirroring the `argparse` declarations of
`main` (lines 117-138).  Flags whose `argparse` default is `None` are
`Option String`; note that `video_dims` has the string default
`"768x768x89"`, so omitting the flag still yields a nonempty string. -/
structure Args where
  dataset_dir : String
  captions_output : Option String
  output_dir_base : String
  captioner_type : String
  caption_column : String
  video_column : String
  id_token : String
  resolution_buckets : String
  config_path : String
  preprocessed_data_root : Option String
  video_dims : String
deriving DecidableEq

/-- The `argparse` defaults: invoking the script with only the positional
dataset directory yields exactly these values (lines 117-138). -/
def argsDefault (dataset_dir : String) : Args where
  dataset_dir := dataset_dir
  captions_output := none
  output_dir_base := "outputs"
  captioner_type := "llava_next_7b"
  caption_column := "caption"
  video_column := "media_path"
  id_token := "T1m3l4ps3"
  resolution_buckets := "768x768x25"
  config_path := "configs/ltxv_2b_lora.yaml"
  preprocessed_data_root := none
  video_dims := "768x768x89"

/-! ## Configuration derivation (`update_yaml_config`, lines 50-100) -/

/-- The dimension parse shared by both branches of the video-dims update:
`dims = [int(x) for x in s.split('x')]` followed by the length-3 test
(`raise ValueError` in the explicit branch, `if len(dims) == 3` in the
fallback branch; either way, a non-3-component or non-integer string
produces no dimension list). -/
def parseDims (s : String) : Option (List Int) :=
  (pyMapInt (pySplit s 'x')).bind (fun dims => if dims.length = 3 then some dims else none)

/-- The preprocessed-data root chosen at lines 64-67: the override when
it is truthy (Python `if args.preprocessed_data_root:`), otherwise
`os.path.join(dataset_dir, ".precomputed")`.  A `None` or empty-string
override is falsy and falls back to the default. -/
def pdrOf (a : Args) : String :=
  match a.preprocessed_data_root with
  | some s => if s = "" then pyJoin a.dataset_dir ".precomputed" else s
  | none => pyJoin a.dataset_dir ".precomputed"

/-- The assignment `config['validation']['video_dims'] = dims` guarded by
its `try` block: it takes effect only when a dimension list was parsed
and the `validation` section exists; a missing section raises `KeyError`,
which the surrounding `except` swallows, leaving the document unchanged. -/
def vdUpdate : Option (List Int) → Option ValSection → Option ValSection
  | some dims, some v => some { v with video_dims := some dims }
  | _, v? => v?

/-- The video-dims update (lines 72-88).  Python truthiness of
`args.video_dims` selects the explicit branch (parse the override) over
the fallback branch (parse the resolution-buckets string); inside each
branch the `try` block aborts silently (a printed diagnostic only) when
the parse fails, when the component count is not 3, or when the
`validation` section is absent.  In every failing case the configuration
is returned unchanged. -/
def applyVideoDims (a : Args) (c : Config) : Config :=
  if a.video_dims = "" then
    { c with validation := vdUpdate (parseDims a.resolution_buckets) c.validation }
  else
    { c with validation := vdUpdate (parseDims a.video_dims) c.validation }

/-- The pure part of `update_yaml_config` once the `data` section is
known to be present: set `data.preprocessed_data_root` (lines 63-67),
set `output_dir` (line 70), run the video-dims update (lines 72-88),
and set `data.training_token` (line 91). -/
def deriveConfig (a : Args) (dir : String) (cfg : Config) (d : DataSection) : Config :=
  let c1 : Config :=
    { cfg with
      data := some { d with preprocessed_data_root := some (pdrOf a) },
      output_dir := some dir }
  let c2 := applyVideoDims a c1
  { c2 with
    data := some { d with preprocessed_data_root := some (pdrOf a),
                          training_token := some a.id_token } }

/-- The target filename of the derived configuration (line 94):
`os.path.basename(config_path).replace('.yaml', '_updated.yaml')` — note
that `str.replace` rewrites every occurrence of `".yaml"` and leaves the
name unchanged when `".yaml"` does not occur in it. -/
def derivedName (a : Args) : String :=
  pyReplace (pyBasename a.config_path) ".yaml" "_updated.yaml"

/-- The path the derived configuration is written to (line 95). -/
def derivedPath (a : Args) (dir : String) : String :=
  pyJoin dir (derivedName a)

/-- `update_yaml_config(args, training_output_dir)` (lines 50-100), as a
function of the loaded base document.  Accessing `config['data']` at
lines 65/67 raises an uncaught `KeyError` when the `data` section is
absent, aborting the function (and the process); otherwise the function
returns the derived document together with the path it writes the
document to (its only write; the base file is opened read-only at
line 60). -/
def update_yaml_config (a : Args) (dir : String) (cfg : Config) :
    Except String (Config × String) :=
  match cfg.data with
  | none => Except.error "KeyError: data"
  | some d => Except.ok (deriveConfig a dir cfg d, derivedPath a dir)

/-! ## Run-directory allocation (lines 146-149) and the filesystem -/

/-- The timestamped run-directory name `f"train_{timestamp}"`. -/
def runDirName (t : Timestamp) : String :=
  "train_" ++ strftimeYmdHMS t

/-- The allocated output directory
`os.path.join(output_dir_base, f"train_{timestamp}")`. -/
def runDirPath (base : String) (t : Timestamp) : String :=
  pyJoin base (runDirName t)

/-- Add a path to the set of existing directories if absent. -/
def insertNew (fs : List String) (p : String) : List String :=
  if p ∈ fs then fs else fs ++ [p]

/-- The chain of proper ancestor directories of a path, built from its
slash-separated components (`cur` is the already-joined prefix). -/
def ancestorChain (cur : String) : List String → List String
  | [] => []
  | [_] => []
  | x :: rest => (cur ++ x) :: ancestorChain (cur ++ x ++ "/") rest

/-- All directories `os.makedirs` ensures exist: the proper ancestors of
the path followed by the path itself. -/
def mkdirsTargets (p : String) : List String :=
  ancestorChain "" (pySplit p '/') ++ [p]

/-- The filesystem after `os.makedirs(p)`: every target directory added
if absent. -/
def mkdirsFold (p : String) (fs : List String) : List String :=
  (mkdirsTargets p).foldl insertNew fs

/-- Model of `os.makedirs(p, exist_ok=ok)` over a directory set: without
`exist_ok` an existing final path raises `FileExistsError`; with it the
call always succeeds, creating the path and any missing parents. -/
def makedirs (p : String) (existOk : Bool) (fs : List String) :
    Except String (List String) :=
  if p ∈ fs ∧ existOk = false then Except.error "FileExistsError"
  else Except.ok (mkdirsFold p fs)

/-- The run-directory allocation of lines 146-149: build the timestamped
path and `os.makedirs(path, exist_ok=True)`. -/
def allocateRunDir (base : String) (t : Timestamp) (fs : List String) :
    Except String (String × List String) :=
  match makedirs (runDirPath base t) true fs with
  | Except.error e => Except.error e
  | Except.ok fs2 => Except.ok (runDirPath base t, fs2)

/-! ## The orchestrator (`main`, lines 140-162) -/

/-- One external stage of the pipeline, in invocation order, plus the
in-process configuration-derivation step. -/
inductive Stage where
  | captioning
  | preprocessing
  | configDerivation
  | training
deriving DecidableEq

/-- The environment of one run: whether each external subprocess exits
successfully (`subprocess.run(..., check=True)` raises on a nonzero
exit), and the outcome of opening and parsing the base YAML file at
lines 60-61 (`Except.error` for an IO or YAML parse failure). -/
structure Env where
  captioningOk : Bool
  preprocessingOk : Bool
  trainingOk : Bool
  baseConfig : Except String Config

/-- What one invocation of `main` did: which stages were started, whether
the process exited with status zero, and the derived configuration with
its write path (populated only when derivation completed). -/
structure RunOutcome where
  invoked : List Stage
  exitOk : Bool
  derived : Option (Config × String)

/-- The stage sequencing of `main` (lines 140-162): captioning,
preprocessing, configuration derivation, then training, each started
only after the previous one succeeded — an uncaught exception from
`subprocess.run(check=True)` or from `update_yaml_config` terminates the
process with a nonzero status and no later stage runs.  (The
`captions.json` default of lines 143-144 only feeds the external
commands, and the `os.makedirs` of line 149 is modelled by
`allocateRunDir`; neither affects sequencing.) -/
def mainRun (env : Env) (a : Args) (ts : Timestamp) : RunOutcome :=
  let dir := runDirPath a.output_dir_base ts
  if env.captioningOk = true then
    if env.preprocessingOk = true then
      match env.baseConfig with
      | Except.error _ =>
        { invoked := [Stage.captioning, Stage.preprocessing, Stage.configDerivation],
          exitOk := false, derived := none }
      | Except.ok cfg =>
        match update_yaml_config a dir cfg with
        | Except.error _ =>
          { invoked := [Stage.captioning, Stage.preprocessing, Stage.configDerivation],
            exitOk := false, derived := none }
        | Except.ok cp =>
          { invoked := [Stage.captioning, Stage.preprocessing,
                        Stage.configDerivation, Stage.training],
            exitOk := env.trainingOk, derived := some cp }
    else
      { invoked := [Stage.captioning, Stage.preprocessing], exitOk := false, derived := none }
  else
    { invoked := [Stage.captioning], exitOk := false, derived := none }

/-! ## Concrete fixtures used by counterexamples and witnesses -/

/-- A populated `data` section. -/
def dFull : DataSection :=
  { preprocessed_data_root := some "old_root", training_token := some "old_token", extraD := [] }

/-- A populated `validation` section. -/
def vFull : ValSection :=
  { video_dims := some [1, 2, 3], extraV := [] }

/-- A well-formed base configuration with both expected sections. -/
def cfgFull : Config :=
  { data := some dFull, validation := some vFull, output_dir := some "old_out", rest := [] }

/-- A base configuration whose top-level `validation` section is absent. -/
def cfgNoVal : Config :=
  { data := some dFull, validation := none, output_dir := none, rest := [] }

/-- An environment in which every external stage succeeds and the base
configuration file loads as `cfg`. -/
def envOkWith (cfg : Config) : Env :=
  { captioningOk := true, preprocessingOk := true, trainingOk := true,
    baseConfig := Except.ok cfg }

/-- An environment in which the captioning subprocess fails. -/
def envCapFail : Env :=
  { captioningOk := false, preprocessingOk := true, trainingOk := true,
    baseConfig := Except.ok cfgFull }

/-- A sample wall-clock time, 2025-01-01 12:00:00. -/
def tsEx : Timestamp := ⟨2025, 1, 1, 12, 0, 0⟩

/-- The command line `run_pipeline.py videos` (all flags left at their
defaults). -/
def baseArgs : Args := argsDefault "videos"

/-- The defaults with a malformed explicit video-dims override. -/
def badDimsArgs : Args := { baseArgs with video_dims := "not-a-resolution" }

/-- The defaults with resolution buckets `512x512x16` and `--video_dims`
not passed (so it keeps its `argparse` default `"768x768x89"`). -/
def argsC3 : Args := { baseArgs with resolution_buckets := "512x512x16" }

/-- The defaults with an explicitly supplied empty preprocessed-data-root
override. -/
def argsC5 : Args := { baseArgs with preprocessed_data_root := some "" }

/-- The defaults with a base configuration file that has no `.yaml`
extension and sits inside the very directory the run allocates at
`tsEx`. -/
def argsC8 : Args :=
  { baseArgs with config_path := "outputs/train_20250101_120000/config.yml" }

/-! ## Helper lemmas -/

lemma parseDims_eq_some {s : String} {dims : List Int} (h : parseDims s = some dims) :
    pyMapInt (pySplit s 'x') = some dims ∧ dims.length = 3 := by
  unfold parseDims at h
  rcases hm : pyMapInt (pySplit s 'x') with _ | l <;> rw [hm] at h
  · exact absurd h (by simp)
  · rw [Option.some_bind] at h
    by_cases hl : l.length = 3
    · rw [if_pos hl] at h
      obtain rfl : l = dims := Option.some.inj h
      exact ⟨rfl, hl⟩
    · rw [if_neg hl] at h
      exact absurd h (by simp)

lemma vdUpdate_none (v? : Option ValSection) : vdUpdate none v? = v? := rfl

lemma vdUpdate_to_none (d? : Option (List Int)) : vdUpdate d? none = none := by
  cases d? <;> rfl

lemma applyVideoDims_eq (a : Args) (c : Config) :
    applyVideoDims a c =
      { c with validation :=
          (vdUpdate (parseDims (if a.video_dims = "" then a.resolution_buckets else a.video_dims))
            c.validation) } := by
  by_cases h : a.video_dims = "" <;> simp [applyVideoDims, h]

lemma deriveConfig_eq (a : Args) (dir : String) (cfg : Config) (d : DataSection) :
    deriveConfig a dir cfg d =
      { data := some { d with preprocessed_data_root := some (pdrOf a),
                              training_token := some a.id_token },
        validation :=
          (vdUpdate (parseDims (if a.video_dims = "" then a.resolution_buckets else a.video_dims))
            cfg.validation),
        output_dir := some dir,
        rest := cfg.rest } := by
  simp [deriveConfig, applyVideoDims_eq]

lemma deriveConfig_output (a : Args) (dir : String) (cfg : Config) (d : DataSection) :
    (deriveConfig a dir cfg d).output_dir = some dir := by
  rw [deriveConfig_eq]

lemma deriveConfig_dataPdr (a : Args) (dir : String) (cfg : Config) (d : DataSection) :
    dataPdr (deriveConfig a dir cfg d) = some (pdrOf a) := by
  rw [deriveConfig_eq]; rfl

lemma deriveConfig_dataToken (a : Args) (dir : String) (cfg : Config) (d : DataSection) :
    dataToken (deriveConfig a dir cfg d) = some a.id_token := by
  rw [deriveConfig_eq]; rfl

lemma deriveConfig_validation (a : Args) (dir : String) (cfg : Config) (d : DataSection) :
    (deriveConfig a dir cfg d).validation =
      vdUpdate (parseDims (if a.video_dims = "" then a.resolution_buckets else a.video_dims))
        cfg.validation := by
  rw [deriveConfig_eq]

lemma deriveConfig_validation_of_fail (a : Args) (dir : String) (cfg : Config)
    (d : DataSection) (hne : a.video_dims ≠ "") (hfail : parseDims a.video_dims = none) :
    (deriveConfig a dir cfg d).validation = cfg.validation := by
  rw [deriveConfig_validation, if_neg hne, hfail, vdUpdate_none]

lemma deriveConfig_validation_none (a : Args) (dir : String) (cfg : Config)
    (d : DataSection) (hval : cfg.validation = none) :
    (deriveConfig a dir cfg d).validation = none := by
  rw [deriveConfig_validation, hval, vdUpdate_to_none]

lemma deriveConfig_set_output (a : Args) (dir1 dir2 : String) (cfg : Config) (d : DataSection) :
    { deriveConfig a dir1 cfg d with output_dir := some dir2 } = deriveConfig a dir2 cfg d := by
  rw [deriveConfig_eq, deriveConfig_eq]

lemma update_ok (a : Args) (dir : String) (cfg : Config) (d : DataSection)
    (hdata : cfg.data = some d) :
    update_yaml_config a dir cfg =
      Except.ok (deriveConfig a dir cfg d, derivedPath a dir) := by
  simp [update_yaml_config, hdata]

lemma mainRun_success (env : Env) (a : Args) (ts : Timestamp) (cfg : Config) (d : DataSection)
    (hcap : env.captioningOk = true) (hpre : env.preprocessingOk = true)
    (hcfg : env.baseConfig = Except.ok cfg) (hdata : cfg.data = some d) :
    mainRun env a ts =
      { invoked := [Stage.captioning, Stage.preprocessing,
                    Stage.configDerivation, Stage.training],
        exitOk := env.trainingOk,
        derived := some (deriveConfig a (runDirPath a.output_dir_base ts) cfg d,
                         derivedPath a (runDirPath a.output_dir_base ts)) } := by
  simp [mainRun, hcap, hpre, hcfg, update_ok a _ cfg d hdata]

/-! ## Claims -/

/-- Claim C1, counterexample: with the malformed explicit video-dims
override `"not-a-resolution"` and every external stage succeeding,
configuration derivation does not abort — the training stage is invoked
and the process exits with status zero, so a malformed override is not a
fatal error. -/
theorem claim_C1_counterexample :
    badDimsArgs.video_dims ≠ ""
    ∧ parseDims badDimsArgs.video_dims = none
    ∧ Stage.training ∈ (mainRun (envOkWith cfgFull) badDimsArgs tsEx).invoked
    ∧ (mainRun (envOkWith cfgFull) badDimsArgs tsEx).exitOk = true := by
  decide

/-- Claim C1 (amended): if an explicit video-dimensions override string
is supplied and malformed, the parse error is caught and merely logged:
derivation completes, `validation.video_dims` keeps its base value, and
the pipeline still reaches the training stage. -/
theorem claim_C1 (env : Env) (a : Args) (ts : Timestamp) (cfg : Config) (d : DataSection)
    (hcap : env.captioningOk = true) (hpre : env.preprocessingOk = true)
    (hcfg : env.baseConfig = Except.ok cfg) (hdata : cfg.data = some d)
    (hne : a.video_dims ≠ "") (hfail : parseDims a.video_dims = none) :
    (mainRun env a ts).invoked =
      [Stage.captioning, Stage.preprocessing, Stage.configDerivation, Stage.training]
    ∧ (mainRun env a ts).derived.map (fun cp => cp.fst.validation) = some cfg.validation := by
  rw [mainRun_success env a ts cfg d hcap hpre hcfg hdata]
  exact ⟨rfl, by simp [deriveConfig_validation_of_fail a _ cfg d hne hfail]⟩

/-- Claim C1, witness for the amended theorem at a concrete run. -/
theorem claim_C1_witness :
    parseDims "not-a-resolution" = none
    ∧ (mainRun (envOkWith cfgFull) badDimsArgs tsEx).derived.map (fun cp => cp.fst.validation)
        = some cfgFull.validation :=
  ⟨by decide,
   (claim_C1 (envOkWith cfgFull) badDimsArgs tsEx cfgFull dFull rfl rfl rfl rfl
      (by decide) (by decide)).2⟩

/-- Claim C2, counterexample: a base configuration whose `validation`
section is absent does not make derivation abort — the `KeyError` raised
by `config['validation']` is caught by the dimension-update `except`
handler, the training stage is still invoked, and the process exits with
status zero. -/
theorem claim_C2_counterexample :
    cfgNoVal.validation = none
    ∧ Stage.training ∈ (mainRun (envOkWith cfgNoVal) baseArgs tsEx).invoked
    ∧ (mainRun (envOkWith cfgNoVal) baseArgs tsEx).exitOk = true := by
  decide

/-- Claim C2 (amended): when the base configuration lacks the
`validation` section (but has a `data` section), derivation completes
without error, the derived document still has no `validation` section,
and the training stage is invoked. -/
theorem claim_C2 (env : Env) (a : Args) (ts : Timestamp) (cfg : Config) (d : DataSection)
    (hcap : env.captioningOk = true) (hpre : env.preprocessingOk = true)
    (hcfg : env.baseConfig = Except.ok cfg) (hdata : cfg.data = some d)
    (hval : cfg.validation = none) :
    (mainRun env a ts).invoked =
      [Stage.captioning, Stage.preprocessing, Stage.configDerivation, Stage.training]
    ∧ (mainRun env a ts).derived.map (fun cp => cp.fst.validation) = some none := by
  rw [mainRun_success env a ts cfg d hcap hpre hcfg hdata]
  exact ⟨rfl, by simp [deriveConfig_validation_none a _ cfg d hval]⟩

/-- Claim C2, witness for the amended theorem at a concrete run. -/
theorem claim_C2_witness :
    cfgNoVal.validation = none
    ∧ (mainRun (envOkWith cfgNoVal) baseArgs tsEx).invoked =
        [Stage.captioning, Stage.preprocessing, Stage.configDerivation, Stage.training] :=
  ⟨rfl,
   (claim_C2 (envOkWith cfgNoVal) baseArgs tsEx cfgNoVal dFull rfl rfl rfl rfl rfl).1⟩

/-- Claim C3, counterexample: invoked with no `--video_dims` flag (so the
`argparse` default `"768x768x89"` is in force) and resolution buckets
`"512x512x16"`, the derived `validation.video_dims` is `[768, 768, 89]`,
not `[512, 512, 16]` — the non-`None` default means the explicit branch
always wins and the resolution-bucket string is never reused. -/
theorem claim_C3_counterexample :
    argsC3.video_dims = "768x768x89"
    ∧ argsC3.resolution_buckets = "512x512x16"
    ∧ (mainRun (envOkWith cfgFull) argsC3 tsEx).derived.map (fun cp => valDims cp.fst)
        = some (some [768, 768, 89])
    ∧ (some (some [768, 768, 89]) : Option (Option (List Int))) ≠ some (some [512, 512, 16]) := by
  decide

/-- Claim C3 (amended): in the scenario of the claim (dataset directory
`videos`, no overrides beyond resolution buckets `"512x512x16"`), the
derived configuration has `video_dims == [768, 768, 89]` (parsed from the
default video-dims string, which takes precedence over the bucket
fallback), `preprocessed_data_root == "videos/.precomputed"`, and
`output_dir == outputs/train_<timestamp>`. -/
theorem claim_C3 (ts : Timestamp) :
    (mainRun (envOkWith cfgFull) argsC3 ts).derived.map (fun cp => valDims cp.fst)
        = some (some [768, 768, 89])
    ∧ (mainRun (envOkWith cfgFull) argsC3 ts).derived.map (fun cp => dataPdr cp.fst)
        = some (some "videos/.precomputed")
    ∧ (mainRun (envOkWith cfgFull) argsC3 ts).derived.map (fun cp => cp.fst.output_dir)
        = some (some (runDirPath "outputs" ts))
    ∧ runDirPath "outputs" ts = pyJoin "outputs" ("train_" ++ strftimeYmdHMS ts) :=
  ⟨rfl, rfl, rfl, rfl⟩

/-- Claim C4, counterexample: the parse of a `"WxHxF"` string does not
require positive components — `"768x768x0"` parses successfully to
`[768, 768, 0]` even though `0` is not positive, and the derived
configuration's `validation.video_dims` is mutated to that value. -/
theorem claim_C4_counterexample :
    parseDims "768x768x0" = some [768, 768, 0]
    ∧ ¬ ((0 : Int) < 0)
    ∧ valDims (deriveConfig { baseArgs with video_dims := "768x768x0" } "out" cfgFull dFull)
        = some [768, 768, 0] := by
  decide

/-- Claim C4 (amended): parsing succeeds only when the string has exactly
three `x`-separated components and each parses as an integer (possibly
zero or negative — positivity is not checked); for any input with the
wrong component count or a non-integer component the parse fails, and a
failing explicit override leaves `validation.video_dims` unmutated. -/
theorem claim_C4 (s : String) (dims : List Int) (a : Args) (dir : String)
    (cfg : Config) (d : DataSection)
    (hsucc : parseDims s = some dims)
    (hne : a.video_dims ≠ "") (hfail : parseDims a.video_dims = none) :
    (dims.length = 3 ∧ pyMapInt (pySplit s 'x') = some dims)
    ∧ (deriveConfig a dir cfg d).validation = cfg.validation := by
  obtain ⟨hm, hl⟩ := parseDims_eq_some hsucc
  exact ⟨⟨hl, hm⟩, deriveConfig_validation_of_fail a dir cfg d hne hfail⟩

/-- Claim C4, witness: a well-formed string parses to its three
components, and a malformed override leaves the `validation` section of
a concrete configuration unchanged. -/
theorem claim_C4_witness :
    parseDims "1x2x3" = some [1, 2, 3]
    ∧ parseDims "not-a-resolution" = none
    ∧ (deriveConfig badDimsArgs "out" cfgFull dFull).validation = cfgFull.validation :=
  ⟨by decide, by decide,
   (claim_C4 "1x2x3" [1, 2, 3] badDimsArgs "out" cfgFull dFull (by decide) (by decide)
      (by decide)).2⟩

/-- Claim C5, counterexample: a supplied but empty preprocessed-data-root
override is falsy in Python, so the derived `data.preprocessed_data_root`
is the default `videos/.precomputed`, not the supplied override `""`. -/
theorem claim_C5_counterexample :
    argsC5.preprocessed_data_root = some ""
    ∧ (update_yaml_config argsC5 "out" cfgFull).toOption.map (fun cp => dataPdr cp.fst)
        = some (some "videos/.precomputed")
    ∧ (some "videos/.precomputed" : Option String) ≠ some "" := by
  decide

/-- Claim C5 (amended): when the preprocessed-data-root override is
omitted or empty, the derived `data.preprocessed_data_root` is exactly
`os.path.join(dataset_dir, ".precomputed")`; when a nonempty override is
supplied, it is used verbatim. -/
theorem claim_C5 (a : Args) (dir : String) (cfg : Config) (d : DataSection)
    (hdata : cfg.data = some d) :
    ((a.preprocessed_data_root = none ∨ a.preprocessed_data_root = some "") →
       (update_yaml_config a dir cfg).toOption.map (fun cp => dataPdr cp.fst)
         = some (some (pyJoin a.dataset_dir ".precomputed")))
    ∧ (∀ s : String, a.preprocessed_data_root = some s → s ≠ "" →
       (update_yaml_config a dir cfg).toOption.map (fun cp => dataPdr cp.fst)
         = some (some s)) := by
  rw [update_ok a dir cfg d hdata]
  constructor
  · rintro (h | h) <;> simp [Except.toOption, deriveConfig_dataPdr, pdrOf, h]
  · intro s hs hne
    simp [Except.toOption, deriveConfig_dataPdr, pdrOf, hs, hne]

/-- Claim C5, witness: with the override omitted, the derived root is the
dataset-relative default. -/
theorem claim_C5_witness :
    baseArgs.preprocessed_data_root = none
    ∧ (update_yaml_config baseArgs "out" cfgFull).toOption.map (fun cp => dataPdr cp.fst)
        = some (some (pyJoin "videos" ".precomputed")) :=
  ⟨rfl, (claim_C5 baseArgs "out" cfgFull dFull rfl).1 (Or.inl rfl)⟩

lemma update_err (a : Args) (dir : String) (cfg : Config) (hd : cfg.data = none) :
    update_yaml_config a dir cfg = Except.error "KeyError: data" := by
  simp [update_yaml_config, hd]

lemma mainRun_capFail (e : Env) (a : Args) (t : Timestamp) (h : e.captioningOk = false) :
    mainRun e a t = { invoked := [Stage.captioning], exitOk := false, derived := none } := by
  simp [mainRun, h]

lemma mainRun_preFail (e : Env) (a : Args) (t : Timestamp)
    (hc : e.captioningOk = true) (hp : e.preprocessingOk = false) :
    mainRun e a t =
      { invoked := [Stage.captioning, Stage.preprocessing], exitOk := false, derived := none } := by
  simp [mainRun, hc, hp]

lemma mainRun_loadFail (e : Env) (a : Args) (t : Timestamp) (s : String)
    (hc : e.captioningOk = true) (hp : e.preprocessingOk = true)
    (hb : e.baseConfig = Except.error s) :
    mainRun e a t =
      { invoked := [Stage.captioning, Stage.preprocessing, Stage.configDerivation],
        exitOk := false, derived := none } := by
  simp [mainRun, hc, hp, hb]

lemma mainRun_dataFail (e : Env) (a : Args) (t : Timestamp) (cfg : Config)
    (hc : e.captioningOk = true) (hp : e.preprocessingOk = true)
    (hb : e.baseConfig = Except.ok cfg) (hd : cfg.data = none) :
    mainRun e a t =
      { invoked := [Stage.captioning, Stage.preprocessing, Stage.configDerivation],
        exitOk := false, derived := none } := by
  simp [mainRun, hc, hp, hb, update_err a _ cfg hd]

/-- Claim C6: a captioning failure stops the pipeline — only the
captioning stage is ever invoked and the exit status is nonzero — and in
general each stage is invoked only after every earlier stage succeeded
(preprocessing requires captioning, derivation requires both external
predecessors, training additionally requires a completed derivation). -/
theorem claim_C6 (env : Env) (a : Args) (ts : Timestamp)
    (e : Env) (a2 : Args) (t2 : Timestamp)
    (hfail : env.captioningOk = false) :
    (mainRun env a ts).invoked = [Stage.captioning]
    ∧ (mainRun env a ts).exitOk = false
    ∧ (Stage.preprocessing ∈ (mainRun e a2 t2).invoked → e.captioningOk = true)
    ∧ (Stage.configDerivation ∈ (mainRun e a2 t2).invoked →
        e.captioningOk = true ∧ e.preprocessingOk = true)
    ∧ (Stage.training ∈ (mainRun e a2 t2).invoked →
        e.captioningOk = true ∧ e.preprocessingOk = true
        ∧ (mainRun e a2 t2).derived.isSome = true) := by
  refine ⟨?_, ?_, ?_, ?_, ?_⟩
  · rw [mainRun_capFail env a ts hfail]
  · rw [mainRun_capFail env a ts hfail]
  · intro hmem
    cases hc : e.captioningOk
    · rw [mainRun_capFail e a2 t2 hc] at hmem
      simp at hmem
    · rfl
  · intro hmem
    cases hc : e.captioningOk
    · rw [mainRun_capFail e a2 t2 hc] at hmem
      simp at hmem
    · cases hp : e.preprocessingOk
      · rw [mainRun_preFail e a2 t2 hc hp] at hmem
        simp at hmem
      · exact ⟨rfl, rfl⟩
  · intro hmem
    cases hc : e.captioningOk
    · rw [mainRun_capFail e a2 t2 hc] at hmem
      simp at hmem
    · cases hp : e.preprocessingOk
      · rw [mainRun_preFail e a2 t2 hc hp] at hmem
        simp at hmem
      · refine ⟨rfl, rfl, ?_⟩
        rcases hb : e.baseConfig with s | cfg
        · rw [mainRun_loadFail e a2 t2 s hc hp hb] at hmem
          simp at hmem
        · rcases hd : cfg.data with _ | d
          · rw [mainRun_dataFail e a2 t2 cfg hc hp hb hd] at hmem
            simp at hmem
          · rw [mainRun_success e a2 t2 cfg d hc hp hb hd]
            rfl

/-- Claim C6, witness: at a concrete run with a failing captioning stage,
only captioning is invoked and the exit status is nonzero. -/
theorem claim_C6_witness :
    envCapFail.captioningOk = false
    ∧ (mainRun envCapFail baseArgs tsEx).invoked = [Stage.captioning]
    ∧ (mainRun envCapFail baseArgs tsEx).exitOk = false :=
  ⟨rfl, (claim_C6 envCapFail baseArgs tsEx envCapFail baseArgs tsEx rfl).1,
        (claim_C6 envCapFail baseArgs tsEx envCapFail baseArgs tsEx rfl).2.1⟩

lemma mem_insertNew_of_mem {fs : List String} {q : String} (p : String) (h : q ∈ fs) :
    q ∈ insertNew fs p := by
  unfold insertNew
  split
  · exact h
  · exact List.mem_append_left _ h

lemma mem_insertNew_self (fs : List String) (p : String) : p ∈ insertNew fs p := by
  unfold insertNew
  split
  · assumption
  · exact List.mem_append_right _ (List.mem_singleton.mpr rfl)

lemma mem_foldl_insertNew_of_mem {q : String} (l : List String) (fs : List String)
    (h : q ∈ fs) : q ∈ l.foldl insertNew fs := by
  induction l generalizing fs with
  | nil => exact h
  | cons x xs ih => exact ih _ (mem_insertNew_of_mem x h)

lemma mem_foldl_insertNew_of_mem_list {q : String} {l : List String} (fs : List String)
    (h : q ∈ l) : q ∈ l.foldl insertNew fs := by
  induction l generalizing fs with
  | nil => cases h
  | cons x xs ih =>
    rcases List.mem_cons.mp h with rfl | h2
    · exact mem_foldl_insertNew_of_mem xs _ (mem_insertNew_self fs q)
    · exact ih _ h2

lemma foldl_insertNew_of_all_mem :
    ∀ (l fs : List String), (∀ q ∈ l, q ∈ fs) → l.foldl insertNew fs = fs
  | [], _, _ => rfl
  | x :: xs, fs, h => by
    have hx : x ∈ fs := h x (List.mem_cons_self x xs)
    have h1 : insertNew fs x = fs := by
      unfold insertNew
      rw [if_pos hx]
    rw [List.foldl_cons, h1]
    exact foldl_insertNew_of_all_mem xs fs (fun q hq => h q (List.mem_cons_of_mem x hq))

/-- Claim C7: the allocated run output directory is
`os.path.join(base, "train_" + strftime("%Y%m%d_%H%M%S"))`; allocation
always succeeds (in particular when the path already exists, thanks to
`exist_ok=True`), the directory and all its missing parents are present
afterwards, existing directories are kept, and allocating again at the
same second is idempotent. -/
theorem claim_C7 (base : String) (t : Timestamp) (fs : List String) :
    runDirPath base t = pyJoin base ("train_" ++ strftimeYmdHMS t)
    ∧ allocateRunDir base t fs
        = Except.ok (runDirPath base t, mkdirsFold (runDirPath base t) fs)
    ∧ runDirPath base t ∈ mkdirsFold (runDirPath base t) fs
    ∧ (∀ q ∈ mkdirsTargets (runDirPath base t), q ∈ mkdirsFold (runDirPath base t) fs)
    ∧ (∀ q ∈ fs, q ∈ mkdirsFold (runDirPath base t) fs)
    ∧ allocateRunDir base t (mkdirsFold (runDirPath base t) fs)
        = Except.ok (runDirPath base t, mkdirsFold (runDirPath base t) fs) := by
  have hself : runDirPath base t ∈ mkdirsTargets (runDirPath base t) :=
    List.mem_append_right _ (List.mem_singleton.mpr rfl)
  have hall : ∀ q ∈ mkdirsTargets (runDirPath base t), q ∈ mkdirsFold (runDirPath base t) fs :=
    fun q hq => mem_foldl_insertNew_of_mem_list fs hq
  have hidem : mkdirsFold (runDirPath base t) (mkdirsFold (runDirPath base t) fs)
      = mkdirsFold (runDirPath base t) fs :=
    foldl_insertNew_of_all_mem _ _ hall
  refine ⟨rfl, ?_, mem_foldl_insertNew_of_mem_list fs hself, hall,
          fun q hq => mem_foldl_insertNew_of_mem _ _ hq, ?_⟩
  · simp [allocateRunDir, makedirs, mkdirsFold]
  · simp [allocateRunDir, makedirs, hidem]

/-- Claim C7, witness: a concrete allocation contains the allocated
path. -/
theorem claim_C7_witness :
    runDirPath "outputs" tsEx ∈ mkdirsFold (runDirPath "outputs" tsEx) [] :=
  (claim_C7 "outputs" tsEx []).2.2.1

/-- Claim C8, counterexample: with a base configuration file named
`config.yml` (no `.yaml` occurrence, so `replace` inserts no suffix)
living inside the allocated output directory, the derived-file write
path equals the base configuration path — derivation overwrites the
on-disk base file on this run. -/
theorem claim_C8_counterexample :
    argsC8.config_path = "outputs/train_20250101_120000/config.yml"
    ∧ runDirPath argsC8.output_dir_base tsEx = "outputs/train_20250101_120000"
    ∧ (update_yaml_config argsC8 (runDirPath argsC8.output_dir_base tsEx) cfgFull).toOption.map
        Prod.snd = some argsC8.config_path := by
  decide

/-- Claim C8 (amended): the only file derivation writes is
`os.path.join(outputDir, basename(configPath).replace(".yaml",
"_updated.yaml"))` — every occurrence of `".yaml"` in the base name is
replaced, a base name without `".yaml"` gets no suffix at all, and the
write target can therefore coincide with the base file when the names
and directories collide. -/
theorem claim_C8 (a : Args) (dir : String) (cfg : Config) (c : Config) (p : String)
    (h : update_yaml_config a dir cfg = Except.ok (c, p)) :
    p = pyJoin dir (pyReplace (pyBasename a.config_path) ".yaml" "_updated.yaml") := by
  rcases hd : cfg.data with _ | d
  · rw [update_err a dir cfg hd] at h
    exact absurd h (by simp)
  · rw [update_ok a dir cfg d hd] at h
    simp only [Except.ok.injEq, Prod.mk.injEq] at h
    exact h.2.symm

/-- Claim C8, witness: the write path of a concrete derivation follows
the naming formula. -/
theorem claim_C8_witness :
    derivedPath baseArgs "out"
      = pyJoin "out" (pyReplace (pyBasename baseArgs.config_path) ".yaml" "_updated.yaml") :=
  claim_C8 baseArgs "out" cfgFull (deriveConfig baseArgs "out" cfgFull dFull)
    (derivedPath baseArgs "out") (update_ok baseArgs "out" cfgFull dFull rfl)

/-- Claim C9: derivation is deterministic in its inputs — two derivations
from the same base document and the same request, differing only in the
allocated output directory, produce documents that agree everywhere
except the top-level `output_dir` field. -/
theorem claim_C9 (a : Args) (dir1 dir2 : String) (cfg c1 c2 : Config) (p1 p2 : String)
    (h1 : update_yaml_config a dir1 cfg = Except.ok (c1, p1))
    (h2 : update_yaml_config a dir2 cfg = Except.ok (c2, p2)) :
    c1.output_dir = some dir1 ∧ c2.output_dir = some dir2
    ∧ { c1 with output_dir := c2.output_dir } = c2 := by
  rcases hd : cfg.data with _ | d
  · rw [update_err a dir1 cfg hd] at h1
    exact absurd h1 (by simp)
  · rw [update_ok a dir1 cfg d hd] at h1
    rw [update_ok a dir2 cfg d hd] at h2
    simp only [Except.ok.injEq, Prod.mk.injEq] at h1 h2
    obtain ⟨hc1, -⟩ := h1
    obtain ⟨hc2, -⟩ := h2
    subst hc1
    subst hc2
    refine ⟨deriveConfig_output a dir1 cfg d, deriveConfig_output a dir2 cfg d, ?_⟩
    rw [deriveConfig_output a dir2 cfg d]
    exact deriveConfig_set_output a dir1 dir2 cfg d

/-- Claim C9, witness: two concrete derivations into different
directories agree once the `output_dir` field is transported. -/
theorem claim_C9_witness :
    ({ deriveConfig baseArgs "dir1" cfgFull dFull with
        output_dir := (deriveConfig baseArgs "dir2" cfgFull dFull).output_dir })
      = deriveConfig baseArgs "dir2" cfgFull dFull :=
  (claim_C9 baseArgs "dir1" "dir2" cfgFull _ _ _ _
     (update_ok baseArgs "dir1" cfgFull dFull rfl)
     (update_ok baseArgs "dir2" cfgFull dFull rfl)).2.2

/-- Claim C10: a present (nonempty) but unparseable explicit video-dims
override never falls back to the resolution-bucket string —
`validation.video_dims` keeps exactly its base value, the result does
not depend on the resolution-buckets string at all, and the other
derived fields (`preprocessed_data_root`, `output_dir`,
`training_token`) are still set as usual. -/
theorem claim_C10 (a : Args) (dir : String) (cfg : Config) (d : DataSection) (rb : String)
    (hdata : cfg.data = some d) (hne : a.video_dims ≠ "")
    (hfail : parseDims a.video_dims = none) :
    update_yaml_config a dir cfg = Except.ok (deriveConfig a dir cfg d, derivedPath a dir)
    ∧ (deriveConfig a dir cfg d).validation = cfg.validation
    ∧ dataPdr (deriveConfig a dir cfg d) = some (pdrOf a)
    ∧ (deriveConfig a dir cfg d).output_dir = some dir
    ∧ dataToken (deriveConfig a dir cfg d) = some a.id_token
    ∧ update_yaml_config { a with resolution_buckets := rb } dir cfg
        = update_yaml_config a dir cfg := by
  refine ⟨update_ok a dir cfg d hdata,
          deriveConfig_validation_of_fail a dir cfg d hne hfail,
          deriveConfig_dataPdr a dir cfg d,
          deriveConfig_output a dir cfg d,
          deriveConfig_dataToken a dir cfg d, ?_⟩
  rw [update_ok { a with resolution_buckets := rb } dir cfg d hdata,
      update_ok a dir cfg d hdata]
  simp [deriveConfig_eq, derivedPath, derivedName, pdrOf, hne, hfail, vdUpdate_none]

/-- Claim C10, witness: a concrete malformed override leaves the
`validation` section of a concrete configuration unchanged. -/
theorem claim_C10_witness :
    badDimsArgs.video_dims ≠ ""
    ∧ parseDims badDimsArgs.video_dims = none
    ∧ (deriveConfig badDimsArgs "out2" cfgFull dFull).validation = cfgFull.validation :=
  ⟨by decide, by decide,
   (claim_C10 badDimsArgs "out2" cfgFull dFull "512x512x16" rfl (by decide) (by decide)).2.1⟩

end RunPipeline
